import Mathlib

/-!
Verification of `latch_cli/services/execute.py` (and the `exec` command
boundary in `latch_cli/main.py`): credential fetch, kubeconfig rendering,
the select-based IO pump with its channel demultiplexing, status-frame
decoding, and exit-code propagation.

Machine data is modelled shallowly: JSON values produced by `json.loads`
become the inductive `Json`; bytes become `Nat`; the readiness loop becomes
a step function over an explicit state and a list of readiness events.
-/

namespace LatchExec

/-- Model of a parsed JSON value, i.e. of the Python objects that
`json.loads` produces (dicts are association lists in parse order). -/
inductive Json where
  | null
  | bool (b : Bool)
  | num (n : Int)
  | str (s : String)
  | arr (elems : List Json)
  | obj (fields : List (String × Json))

mutual

/-- Structural equality on `Json`, modelling Python `==` on values decoded
from JSON (strings, numbers, booleans, lists and dicts compare by value). -/
def Json.beq : Json → Json → Bool
  | Json.null, Json.null => true
  | Json.bool a, Json.bool b => a == b
  | Json.num a, Json.num b => a == b
  | Json.str a, Json.str b => a == b
  | Json.arr a, Json.arr b => Json.beqList a b
  | Json.obj a, Json.obj b => Json.beqFields a b
  | _, _ => false

/-- Pointwise `Json.beq` on lists. -/
def Json.beqList : List Json → List Json → Bool
  | [], [] => true
  | a :: as, b :: bs => Json.beq a b && Json.beqList as bs
  | _, _ => false

/-- Pointwise `Json.beq` on association lists. -/
def Json.beqFields : List (String × Json) → List (String × Json) → Bool
  | [], [] => true
  | (ka, va) :: as, (kb, vb) :: bs => ka == kb && Json.beq va vb && Json.beqFields as bs
  | _, _ => false

end

instance : BEq Json := ⟨Json.beq⟩

/-- Python dict lookup on the fields of a decoded JSON object: with
duplicate keys `json.loads` keeps the last occurrence, so the fold keeps
the last match. -/
def lookupField (fields : List (String × Json)) (k : String) : Option Json :=
  fields.foldl (fun acc p => if p.1 == k then some p.2 else acc) none

/-- Terminal outcome of the IO pump in `execute` (source lines 163-211):
either `execute` returns an exit code, or it leaves via `sys.exit(1)`
after printing a diagnostic (the three `fatal` constructors record what
the diagnostic describes), or an uncaught Python exception escapes
(`keyError`, `typeError`, `valueError`, `jsonError`, `indexError`). -/
inductive Outcome where
  | exitCode (n : Int)
  | fatalStatus
  | fatalChannel (ch : Nat) (data : List Nat)
  | fatalOpcode (op : Nat)
  | keyError (k : String)
  | typeError
  | valueError
  | jsonError
  | indexError
deriving DecidableEq

/-- Python subscript `j[k]` on a decoded JSON value: a missing key on a
dict raises `KeyError`, subscripting a non-dict with a string raises
`TypeError`. -/
def jget (j : Json) (k : String) : Except Outcome Json :=
  match j with
  | Json.obj fields =>
    match lookupField fields k with
    | some v => Except.ok v
    | none => Except.error (Outcome.keyError k)
  | _ => Except.error Outcome.typeError

/-- Value of a nonempty digit list. -/
def digitsVal (ds : List Char) : Nat :=
  ds.foldl (fun a c => a * 10 + (c.toNat - 48)) 0

/-- Python `int(s)` on a string: an optional minus sign followed by
digits converts, anything else raises `ValueError` (modelled by `none`). -/
def pyIntStr (s : String) : Option Int :=
  match s.data with
  | [] => none
  | '-' :: rest =>
    if rest.isEmpty then none
    else if rest.all Char.isDigit then some (-(Int.ofNat (digitsVal rest))) else none
  | cs =>
    if cs.all Char.isDigit then some (Int.ofNat (digitsVal cs)) else none

/-- Python `int(x)` on a decoded JSON value (`int(cause["message"])` in the
source): numeric strings convert, numbers pass through, booleans become
0/1, anything else raises. -/
def pyIntOf : Json → Except Outcome Int
  | Json.str s =>
    match pyIntStr s with
    | some n => Except.ok n
    | none => Except.error Outcome.valueError
  | Json.num n => Except.ok n
  | Json.bool b => Except.ok (if b then 1 else 0)
  | _ => Except.error Outcome.typeError

/-- The `for cause in error["details"]["causes"]` loop of source lines
191-193: the first cause whose `reason` equals `"ExitCode"` has its
`message` converted by `int` and returned; a cause without a `reason` key
raises; if no cause matches, the loop falls through (`Except.ok none`). -/
def scanCauses : List Json → Except Outcome (Option Int)
  | [] => Except.ok none
  | c :: cs =>
    match jget c "reason" with
    | Except.error e => Except.error e
    | Except.ok r =>
      if r == Json.str "ExitCode" then
        match jget c "message" with
        | Except.error e => Except.error e
        | Except.ok m =>
          match pyIntOf m with
          | Except.error e => Except.error e
          | Except.ok n => Except.ok (some n)
      else scanCauses cs

/-- The fall-through diagnostic of source lines 194-200: the f-string
evaluates `error['status']` (already known present on every path reaching
here) and `error['message']`, prints, and calls `sys.exit(1)`
(`Outcome.fatalStatus`). A missing `message` key raises `KeyError` before
anything is printed. -/
def genericFail (error : Json) : Outcome :=
  match jget error "message" with
  | Except.error e => e
  | Except.ok _ => Outcome.fatalStatus

/-- Status-channel payload decoding, source lines 187-200: `"Success"`
returns 0; otherwise reason `"NonZeroExitCode"` scans
`details.causes` for an `ExitCode` cause and returns its numeric
`message`; otherwise (or when no cause matches) the generic diagnostic
path runs. -/
def decodeStatus (error : Json) : Outcome :=
  match jget error "status" with
  | Except.error e => e
  | Except.ok st =>
    if st == Json.str "Success" then Outcome.exitCode 0
    else
      match jget error "reason" with
      | Except.error e => e
      | Except.ok r =>
        if r == Json.str "NonZeroExitCode" then
          match jget error "details" with
          | Except.error e => e
          | Except.ok det =>
            match jget det "causes" with
            | Except.error e => e
            | Except.ok causes =>
              match causes with
              | Json.arr cs =>
                match scanCauses cs with
                | Except.error e => e
                | Except.ok (some n) => Outcome.exitCode n
                | Except.ok none => genericFail error
              | _ => Outcome.typeError
        else genericFail error

/-- Whitespace skipping for the JSON parser. -/
def skipWs : List Char → List Char
  | c :: cs => if c == ' ' || c == '\n' || c == '\t' || c == '\r' then skipWs cs else c :: cs
  | [] => []

/-- Body of a JSON string after the opening quote; escapes are not needed
by any payload in this development and make the parse fail. -/
def parseStringBody : List Char → Option (String × List Char)
  | [] => none
  | c :: cs =>
    if c == '"' then some ("", cs)
    else if c == '\\' then none
    else
      match parseStringBody cs with
      | some (s, rest) => some (String.mk (c :: s.data), rest)
      | none => none

/-- JSON integer literal (optional minus sign and digits). -/
def parseNum (cs : List Char) : Option (Int × List Char) :=
  match cs with
  | '-' :: rest =>
    match rest.span Char.isDigit with
    | (ds, r) => if ds.isEmpty then none else some (-(Int.ofNat (digitsVal ds)), r)
  | _ =>
    match cs.span Char.isDigit with
    | (ds, r) => if ds.isEmpty then none else some (Int.ofNat (digitsVal ds), r)

mutual

/-- Fueled recursive-descent JSON value parser (model of `json.loads`). -/
def parseVal : Nat → List Char → Option (Json × List Char)
  | 0, _ => none
  | fuel + 1, cs =>
    match skipWs cs with
    | '"' :: rest =>
      match parseStringBody rest with
      | some (s, r) => some (Json.str s, r)
      | none => none
    | '{' :: rest =>
      match skipWs rest with
      | '}' :: r => some (Json.obj [], r)
      | r2 => parseMembers fuel r2 []
    | '[' :: rest =>
      match skipWs rest with
      | ']' :: r => some (Json.arr [], r)
      | r2 => parseElems fuel r2 []
    | 't' :: 'r' :: 'u' :: 'e' :: rest => some (Json.bool true, rest)
    | 'f' :: 'a' :: 'l' :: 's' :: 'e' :: rest => some (Json.bool false, rest)
    | 'n' :: 'u' :: 'l' :: 'l' :: rest => some (Json.null, rest)
    | other =>
      match parseNum other with
      | some (n, r) => some (Json.num n, r)
      | none => none

/-- Members of a JSON object after the opening brace (nonempty case). -/
def parseMembers : Nat → List Char → List (String × Json) → Option (Json × List Char)
  | 0, _, _ => none
  | fuel + 1, cs, acc =>
    match skipWs cs with
    | '"' :: rest =>
      match parseStringBody rest with
      | none => none
      | some (k, r1) =>
        match skipWs r1 with
        | ':' :: r2 =>
          match parseVal fuel r2 with
          | none => none
          | some (v, r3) =>
            match skipWs r3 with
            | ',' :: r4 => parseMembers fuel r4 (acc ++ [(k, v)])
            | '}' :: r4 => some (Json.obj (acc ++ [(k, v)]), r4)
            | _ => none
        | _ => none
    | _ => none

/-- Elements of a JSON array after the opening bracket (nonempty case). -/
def parseElems : Nat → List Char → List Json → Option (Json × List Char)
  | 0, _, _ => none
  | fuel + 1, cs, acc =>
    match parseVal fuel cs with
    | none => none
    | some (v, r1) =>
      match skipWs r1 with
      | ',' :: r2 => parseElems fuel r2 (acc ++ [v])
      | ']' :: r2 => some (Json.arr (acc ++ [v]), r2)
      | _ => none

end

/-- UTF-8 bytes of an ASCII string, for writing concrete frame payloads. -/
def strBytes (s : String) : List Nat :=
  s.data.map Char.toNat

/-- Model of `json.loads` on a frame payload: decode the bytes as
characters and parse exactly one JSON value (trailing garbage rejected,
as `json.loads` does). -/
def pyJsonLoads (data : List Nat) : Option Json :=
  let cs := data.map Char.ofNat
  match parseVal (cs.length + 2) cs with
  | some (j, rest) => if (skipWs rest).isEmpty then some j else none
  | none => none

/-- Channel constant `kubernetes.stream.ws_client.STDIN_CHANNEL`. -/
def STDIN_CHANNEL : Nat := 0

/-- Channel constant `kubernetes.stream.ws_client.STDOUT_CHANNEL`. -/
def STDOUT_CHANNEL : Nat := 1

/-- Channel constant `kubernetes.stream.ws_client.STDERR_CHANNEL`. -/
def STDERR_CHANNEL : Nat := 2

/-- Channel constant `kubernetes.stream.ws_client.ERROR_CHANNEL`. -/
def ERROR_CHANNEL : Nat := 3

/-- Opcode constant `websocket.ABNF.OPCODE_BINARY`. -/
def OPCODE_BINARY : Nat := 2

/-- Opcode constant `websocket.ABNF.OPCODE_CLOSE`. -/
def OPCODE_CLOSE : Nat := 8

/-- Local file descriptor `sys.stdout.fileno()`. -/
def stdoutFd : Nat := 1

/-- Local file descriptor `sys.stderr.fileno()`. -/
def stderrFd : Nat := 2

/-- One readiness outcome of the `select.select` loop: either the local
stdin descriptor was ready and `os.read` returned `data` (at most 32 KiB),
or the websocket was ready and `recv_data_frame` returned an opcode and
raw frame bytes. An iteration in which both descriptors are ready behaves
exactly like the two events in stdin-first order, which is the order the
loop body checks them in. -/
inductive Event where
  | localReady (data : List Nat)
  | sockReady (opcode : Nat) (data : List Nat)
deriving DecidableEq

/-- Observable state of the IO pump: whether the websocket is still in the
`select` read list, the `os.write` calls made to local stdout/stderr (fd,
bytes) in order, and the frames sent to the remote socket in order. -/
structure PumpState where
  sockInRlist : Bool
  writes : List (Nat × List Nat)
  sends : List (List Nat)
deriving DecidableEq

/-- Pump state at entry of the `while True` loop (source line 163). -/
def initPumpState : PumpState := ⟨true, [], []⟩

/-- Result of one loop-body branch: continue with an updated state, or
leave the loop with a terminal `Outcome`. -/
inductive StepOut where
  | cont (s : PumpState)
  | done (r : Outcome)
deriving DecidableEq

/-- One branch of the loop body (source lines 167-211) applied to one
readiness event. Local data of nonzero length is framed with
`STDIN_CHANNEL` and sent; a zero-length read does nothing. A close opcode
removes the socket from the read list. A binary frame is demultiplexed on
its first byte: stdout/stderr payloads are written locally when nonempty,
an `ERROR_CHANNEL` payload is parsed as JSON and decoded (terminating the
loop), and any other channel — or any other opcode — prints a diagnostic
carrying the offending value and exits the process with code 1. -/
def pumpStep (s : PumpState) : Event → StepOut
  | Event.localReady data =>
    if data.length > 0 then
      StepOut.cont { s with sends := s.sends ++ [STDIN_CHANNEL :: data] }
    else StepOut.cont s
  | Event.sockReady opcode data =>
    if opcode = OPCODE_CLOSE then
      StepOut.cont { s with sockInRlist := false }
    else if opcode = OPCODE_BINARY then
      match data with
      | [] => StepOut.done Outcome.indexError
      | ch :: payload =>
        if ch = STDOUT_CHANNEL ∨ ch = STDERR_CHANNEL then
          if payload.length > 0 then
            if ch = STDOUT_CHANNEL then
              StepOut.cont { s with writes := s.writes ++ [(stdoutFd, payload)] }
            else
              StepOut.cont { s with writes := s.writes ++ [(stderrFd, payload)] }
          else StepOut.cont s
        else if ch = ERROR_CHANNEL then
          StepOut.done
            (match pyJsonLoads payload with
             | none => Outcome.jsonError
             | some error => decodeStatus error)
        else StepOut.done (Outcome.fatalChannel ch payload)
    else StepOut.done (Outcome.fatalOpcode opcode)

/-- Outcome of running the loop over a list of readiness events: either
the events are exhausted with the loop still running, or a terminal
outcome was reached (with the state at that moment; later events are
never read). -/
inductive RunOut where
  | running (s : PumpState)
  | finished (r : Outcome) (s : PumpState)

/-- Iterate `pumpStep` over a readiness-event list. -/
def pumpRun (s : PumpState) : List Event → RunOut
  | [] => RunOut.running s
  | e :: es =>
    match pumpStep s e with
    | StepOut.cont s2 => pumpRun s2 es
    | StepOut.done r => RunOut.finished r s

/-- The local writes of a run's final state. -/
def writesOf : RunOut → List (Nat × List Nat)
  | RunOut.running s => s.writes
  | RunOut.finished _ s => s.writes

/-- Process exit code produced by the `exec` command in `main.py` (lines
379-391) for each way `services.execute` can end: a normal return's value
is discarded (`execute(task_name)` is a bare statement inside
`try/except Exception`) and click exits 0; `sys.exit(1)` raises
`SystemExit`, which `except Exception` does not catch, so the process
exits 1; every other exception is caught, a message is echoed, and the
process exits 0. -/
def cliExecExit : Outcome → Int
  | Outcome.exitCode _ => 0
  | Outcome.fatalStatus => 1
  | Outcome.fatalChannel _ _ => 1
  | Outcome.fatalOpcode _ => 1
  | Outcome.keyError _ => 0
  | Outcome.typeError => 0
  | Outcome.valueError => 0
  | Outcome.jsonError => 0
  | Outcome.indexError => 0

/-- Local constant `region_code` of `_construct_kubeconfig`. -/
def region_code : String := "us-west-2"

/-- Local constant `cluster_name` of `_construct_kubeconfig`. -/
def cluster_name : String := "prion-prod"

/-- The EKS ARN string `arn:aws:eks:{region_code}:{account_id}:cluster/{cluster_name}`
that the source template splices, verbatim, as the cluster name, the
context's cluster/user/name, the current context, and the user name. -/
def eksName (account_id : String) : String :=
  "arn:aws:eks:" ++ region_code ++ ":" ++ account_id ++ ":cluster/" ++ cluster_name

/-- The rendered kubeconfig of `_construct_kubeconfig` (source lines
22-71). `textwrap.dedent` is the identity here because the template's
first line has no leading whitespace, so the common indent is empty. The
template is transcribed chunk by chunk, right-associated; single quotes
and braces of the YAML text are written as the escapes `\x27`, `\x7b`,
`\x7d`. -/
def _construct_kubeconfig (cert_auth_data cluster_endpoint account_id
    access_key secret_key session_token : String) : String :=
  "apiVersion: v1\nclusters:\n- cluster:\n    certificate-authority-data: " ++
  (cert_auth_data ++
  ("\n    server: " ++
  (cluster_endpoint ++
  ("\n  name: " ++
  (("arn:aws:eks:" ++ region_code ++ ":" ++ account_id ++ ":cluster/" ++ cluster_name) ++
  ("\ncontexts:" ++
  ("\n- context:\n    cluster: " ++
  (("arn:aws:eks:" ++ region_code ++ ":" ++ account_id ++ ":cluster/" ++ cluster_name) ++
  ("\n    user: " ++
  (("arn:aws:eks:" ++ region_code ++ ":" ++ account_id ++ ":cluster/" ++ cluster_name) ++
  ("\n  name: " ++
  (("arn:aws:eks:" ++ region_code ++ ":" ++ account_id ++ ":cluster/" ++ cluster_name) ++
  ("\ncurrent-context: " ++
  (("arn:aws:eks:" ++ region_code ++ ":" ++ account_id ++ ":cluster/" ++ cluster_name) ++
  ("\nkind: Config\npreferences: \x7b\x7d\nusers:\n- name: " ++
  (("arn:aws:eks:" ++ region_code ++ ":" ++ account_id ++ ":cluster/" ++ cluster_name) ++
  ("\n  user:\n    exec:\n      apiVersion: client.authentication.k8s.io/v1beta1\n      command: aws\n      args:\n        - --region\n        - " ++
  (region_code ++
  ("\n        - eks\n        - get-token\n        - --cluster-name\n        - " ++
  (cluster_name ++
  ("\n      env:\n        - name: \x27AWS_ACCESS_KEY_ID\x27\n          " ++
  ("value: \x27" ++
  (access_key ++
  ("\x27" ++
  ("\n        - name: \x27AWS_SECRET_ACCESS_KEY\x27\n          " ++
  ("value: \x27" ++
  (secret_key ++
  ("\x27" ++
  ("\n        - name: \x27AWS_SESSION_TOKEN\x27\n          " ++
  ("value: \x27" ++
  (session_token ++
  "\x27")))))))))))))))))))))))))))))))

/-- The seven fields `_fetch_pod_info` reads from the broker response, in
source order (lines 83-89). -/
def requiredFields : List String :=
  ["tmp_access_key", "tmp_secret_key", "tmp_session_token", "cert_auth_data",
   "cluster_endpoint", "namespace", "aws_account_id"]

/-- The tuple `_fetch_pod_info` returns (source lines 93-101). The Python
name `namespace` is a Lean keyword, hence `nspace`. -/
structure PodInfo where
  access_key : Json
  secret_key : Json
  session_token : Json
  cert_auth_data : Json
  cluster_endpoint : Json
  nspace : Json
  aws_account_id : Json

/-- Field extraction of `_fetch_pod_info` (source lines 81-101) from a
broker response already decoded by `response.json()` into a JSON object's
fields. The seven keys are read in source order inside one `try`; the
first missing key raises `KeyError`, which is caught and re-raised as
`ValueError("malformed response on image upload: ...")`. -/
def _fetch_pod_info (resp : List (String × Json)) : Except String PodInfo :=
  match lookupField resp "tmp_access_key" with
  | none => Except.error "malformed response on image upload"
  | some access_key =>
    match lookupField resp "tmp_secret_key" with
    | none => Except.error "malformed response on image upload"
    | some secret_key =>
      match lookupField resp "tmp_session_token" with
      | none => Except.error "malformed response on image upload"
      | some session_token =>
        match lookupField resp "cert_auth_data" with
        | none => Except.error "malformed response on image upload"
        | some cert_auth_data =>
          match lookupField resp "cluster_endpoint" with
          | none => Except.error "malformed response on image upload"
          | some cluster_endpoint =>
            match lookupField resp "namespace" with
            | none => Except.error "malformed response on image upload"
            | some nspace =>
              match lookupField resp "aws_account_id" with
              | none => Except.error "malformed response on image upload"
              | some aws_account_id =>
                Except.ok ⟨access_key, secret_key, session_token,
                  cert_auth_data, cluster_endpoint, nspace, aws_account_id⟩

/-- Source lines 117-119: the account id derived from the caller's token
is parsed by `int` (raising `ValueError` on non-numeric input, modelled by
`none`) and prefixed with `"x"` when its numeric value is below 10. -/
def accountIdAdjust (raw : String) : Option String :=
  match pyIntStr raw with
  | none => none
  | some n => some (if n < 10 then "x" ++ raw else raw)

/-- Source lines 117-128 as one function: the token-derived account id is
computed (its only possible effect is the `int` failure) and then unused;
the kubeconfig is rendered from the broker's `aws_account_id` and the
three temporary credentials. -/
def sessionKubeconfig (tokenAccountId : String) (cert_auth_data cluster_endpoint
    aws_account_id access_key secret_key session_token : String) : Option String :=
  match accountIdAdjust tokenAccountId with
  | none => none
  | some _ =>
    some (_construct_kubeconfig cert_auth_data cluster_endpoint aws_account_id
      access_key secret_key session_token)

/-- Operations `execute` performs on the credential file
`Path("config").resolve()`. -/
inductive FileOp where
  | openW
  | writeContent (s : String)
  | closeFile
  | loadConfig
  | removeFile
deriving DecidableEq

/-- The complete sequence of operations `execute` performs on the
credential file, source lines 129-134: `with open(config_file, "w")`
truncates and opens, the rendered config is written, the `with` block
closes the handle, and `load_kube_config("config")` reads it. The pump
(lines 136-211) touches no file on any of its exit paths, so the sequence
does not depend on the session's outcome (the parameter records this). -/
def executeFileOps (cfg : String) (_outcome : Outcome) : List FileOp :=
  [FileOp.openW, FileOp.writeContent cfg, FileOp.closeFile, FileOp.loadConfig]

/-- Effect of one file operation on the file's content (`none` = absent,
`some s` = present with content `s`): opening with mode `"w"` truncates or
creates, writing appends to the open file, close and load leave content
unchanged, removal deletes. -/
def applyFileOp : Option String → FileOp → Option String
  | _, FileOp.openW => some ""
  | f, FileOp.writeContent s => some ((f.getD "") ++ s)
  | f, FileOp.closeFile => f
  | f, FileOp.loadConfig => f
  | _, FileOp.removeFile => none

/-- Content the `loadConfig` step observes: the file state after the
operations preceding the first `loadConfig`; `none` when nothing is
loaded. -/
def contentAtFirstLoad : Option String → List FileOp → Option (Option String)
  | _, [] => none
  | f, op :: ops =>
    if op == FileOp.loadConfig then some f
    else contentAtFirstLoad (applyFileOp f op) ops

/-- Whether an open handle remains after a list of file operations. -/
def handleAfter (ops : List FileOp) : Bool :=
  ops.foldl
    (fun h op =>
      match op with
      | FileOp.openW => true
      | FileOp.closeFile => false
      | _ => h)
    false

/-- Events the demultiplexing claim quantifies over: local reads, and
inbound binary frames carrying a channel byte in the defined set 0-3. -/
def isDemuxEvent : Event → Bool
  | Event.localReady _ => true
  | Event.sockReady op data =>
    match data with
    | ch :: _ => op == OPCODE_BINARY && ch ≤ 3
    | [] => false

/-- Follows the spec's words (demux routing): traversing the received
frames in order, a channel-1 frame's nonempty payload goes to the local
stdout descriptor and a channel-2 frame's nonempty payload to the local
stderr descriptor; empty payloads produce no write; a status frame (or an
inbound stdin-channel frame) ends the session, so nothing after it is
read or written; local input events produce no local write. -/
def demuxSpec : List Event → List (Nat × List Nat)
  | [] => []
  | Event.localReady _ :: es => demuxSpec es
  | Event.sockReady _ data :: es =>
    match data with
    | ch :: p =>
      if ch == STDOUT_CHANNEL then
        if p.isEmpty then demuxSpec es else (stdoutFd, p) :: demuxSpec es
      else if ch == STDERR_CHANNEL then
        if p.isEmpty then demuxSpec es else (stderrFd, p) :: demuxSpec es
      else []
    | [] => []

/-- Follows the spec's words (status decoding): the exit code is the
numeric value of the `message` of the first cause whose `reason` is
`"ExitCode"`; causes without a usable `reason` are skipped, and a
non-string or non-numeric `message` yields nothing. -/
def specExitCodeOfCauses : List Json → Option Int
  | [] => none
  | c :: cs =>
    match jget c "reason" with
    | Except.ok r =>
      if r == Json.str "ExitCode" then
        match jget c "message" with
        | Except.ok (Json.str m) => pyIntStr m
        | _ => none
      else specExitCodeOfCauses cs
    | Except.error _ => specExitCodeOfCauses cs

/-- The status payload of the spec's non-zero-exit example: decodes to
exit code 17. -/
def cause17 : Json :=
  Json.obj [("reason", Json.str "ExitCode"), ("message", Json.str "17")]

/-- The full non-zero-exit status payload
`{"status":"Failure","reason":"NonZeroExitCode","details":{"causes":[...]}}`. -/
def payload17 : Json :=
  Json.obj [("status", Json.str "Failure"), ("reason", Json.str "NonZeroExitCode"),
    ("details", Json.obj [("causes", Json.arr [cause17])])]

/-- The spec's success payload `{"status":"Success"}`. -/
def successPayload : Json := Json.obj [("status", Json.str "Success")]

/-- The spec's generic-failure payload
`{"status":"Failure","reason":"SomethingElse","message":"boom"}`. -/
def boomPayload : Json :=
  Json.obj [("status", Json.str "Failure"), ("reason", Json.str "SomethingElse"),
    ("message", Json.str "boom")]

/-- A failure payload that names a reason but carries no `message` key. -/
def noMessageFailure : Json :=
  Json.obj [("status", Json.str "Failure"), ("reason", Json.str "SomethingElse")]

/-- C8: a zero-length local read (local end-of-input) sends nothing,
changes no state — in particular the read list still holds both
descriptors — and never terminates the loop: the run over the remaining
events is exactly the run without the empty read. -/
theorem local_eof_keeps_polling (s : PumpState) (es : List Event) :
    pumpStep s (Event.localReady []) = StepOut.cont s ∧
    pumpRun s (Event.localReady [] :: es) = pumpRun s es := by
  exact ⟨rfl, rfl⟩

/-- C5: an inbound binary frame whose channel byte is outside {0,1,2,3}
makes the pump stop at once with a diagnostic outcome that carries the
unexpected channel and the payload (nothing is written to local output:
the state is returned unchanged, and later events are never read), and
the process exit code is the generic failure code 1; likewise any
non-close, non-binary opcode stops the pump with a diagnostic carrying
the opcode and exits with code 1. -/
theorem unexpected_channel_fatal :
    (∀ (s : PumpState) (ch : Nat) (payload : List Nat) (es : List Event),
      ch ∉ ([0, 1, 2, 3] : List Nat) →
      pumpRun s (Event.sockReady OPCODE_BINARY (ch :: payload) :: es) =
        RunOut.finished (Outcome.fatalChannel ch payload) s ∧
      cliExecExit (Outcome.fatalChannel ch payload) = 1) ∧
    (∀ (s : PumpState) (op : Nat) (data : List Nat) (es : List Event),
      op ≠ OPCODE_CLOSE → op ≠ OPCODE_BINARY →
      pumpRun s (Event.sockReady op data :: es) =
        RunOut.finished (Outcome.fatalOpcode op) s ∧
      cliExecExit (Outcome.fatalOpcode op) = 1) := by
  constructor
  · intro s ch payload es h
    simp only [List.mem_cons, List.mem_singleton, not_or] at h
    obtain ⟨h0, h1, h2, h3, -⟩ := h
    refine ⟨?_, rfl⟩
    simp [pumpRun, pumpStep, OPCODE_BINARY, OPCODE_CLOSE, STDOUT_CHANNEL,
      STDERR_CHANNEL, ERROR_CHANNEL, h1, h2, h3]
  · intro s op data es hc hb
    refine ⟨?_, rfl⟩
    simp [pumpRun, pumpStep, hc, hb]

/-- C5 witness: channel 9 and the text opcode 1 at concrete states. -/
theorem unexpected_channel_fatal_witness :
    (9 ∉ ([0, 1, 2, 3] : List Nat)) ∧
    pumpRun initPumpState [Event.sockReady OPCODE_BINARY [9, 55]] =
      RunOut.finished (Outcome.fatalChannel 9 [55]) initPumpState ∧
    pumpRun initPumpState [Event.sockReady 1 [104]] =
      RunOut.finished (Outcome.fatalOpcode 1) initPumpState ∧
    cliExecExit (Outcome.fatalChannel 9 [55]) = 1 ∧
    cliExecExit (Outcome.fatalOpcode 1) = 1 := by
  refine ⟨by decide, ?_, ?_, rfl, rfl⟩
  · exact (unexpected_channel_fatal.1 initPumpState 9 [55] [] (by decide)).1
  · exact (unexpected_channel_fatal.2 initPumpState 1 [104] [] (by decide) (by decide)).1

/-- C2 (code bug evaluated): the status payload carrying exit code 17
decodes to 17 inside `services.execute`, but the CLI boundary in
`main.py` discards the returned code, so the process exits 0 instead of
17; an unrecoverable transport or decode error (an exception other than
`SystemExit`) is swallowed by `except Exception` and the process exits 0
instead of 1. The clauses the code does satisfy are recorded too:
success exits 0 and a protocol violation exits 1. -/
theorem cli_exit_code_divergence :
    decodeStatus payload17 = Outcome.exitCode 17 ∧
    cliExecExit (decodeStatus payload17) = 0 ∧
    cliExecExit Outcome.jsonError = 0 ∧
    cliExecExit (decodeStatus successPayload) = 0 ∧
    cliExecExit (Outcome.fatalChannel 9 [55]) = 1 := by
  exact ⟨rfl, rfl, rfl, rfl, rfl⟩

/-- C7: on every exit path (the credential-file operations do not depend
on the session's outcome), the write is bracketed by open and close with
no handle left open afterwards; the content the session loads is exactly
the kubeconfig it just rendered, whatever was left on disk before; and
the file ends in a deterministic state — truncated and rewritten, so no
leftover from a previous session is ever consulted or reusable. -/
theorem credential_file_lifecycle (cfg : String) (o o2 : Outcome) (state0 : Option String) :
    executeFileOps cfg o = executeFileOps cfg o2 ∧
    handleAfter (executeFileOps cfg o) = false ∧
    contentAtFirstLoad state0 (executeFileOps cfg o) = some (some cfg) ∧
    (executeFileOps cfg o).foldl applyFileOp state0 = some cfg := by
  refine ⟨rfl, rfl, ?_, ?_⟩ <;>
    simp [executeFileOps, contentAtFirstLoad, applyFileOp, handleAfter]

/-- C9: the token-derived account id (source lines 117-119) influences no
output: any two numeric token-derived ids produce the same rendered
kubeconfig, because the config is built from the broker's
`aws_account_id` alone; the second conjunct records that the model does
apply the `"x"` prefix below 10, as the source does. -/
theorem token_account_id_no_influence
    (t1 t2 cert ep acct ak sk st : String)
    (h1 : (accountIdAdjust t1).isSome = true)
    (h2 : (accountIdAdjust t2).isSome = true) :
    sessionKubeconfig t1 cert ep acct ak sk st =
      sessionKubeconfig t2 cert ep acct ak sk st ∧
    (∀ (raw : String) (n : Int), pyIntStr raw = some n → n < 10 →
      accountIdAdjust raw = some ("x" ++ raw)) := by
  constructor
  · unfold sessionKubeconfig
    cases ha : accountIdAdjust t1 with
    | none => rw [ha] at h1; simp at h1
    | some a =>
      cases hb : accountIdAdjust t2 with
      | none => rw [hb] at h2; simp at h2
      | some b => rfl
  · intro raw n hn hlt
    unfold accountIdAdjust
    rw [hn]
    simp [hlt]

/-- C9 witness: a below-10 id (which gets the `"x"` prefix) and a long id
produce identical rendered configs. -/
theorem token_account_id_no_influence_witness :
    (accountIdAdjust "5").isSome = true ∧
    (accountIdAdjust "12345").isSome = true ∧
    accountIdAdjust "5" = some "x5" ∧
    sessionKubeconfig "5" "CERT" "EP" "123" "AK" "SK" "TOK" =
      sessionKubeconfig "12345" "CERT" "EP" "123" "AK" "SK" "TOK" := by
  refine ⟨rfl, rfl, rfl, ?_⟩
  exact (token_account_id_no_influence "5" "12345" "CERT" "EP" "123" "AK" "SK" "TOK"
    rfl rfl).1

/-- A successful fetch implies every required field was found, with the
returned tuple holding exactly the looked-up values. -/
theorem fetch_ok_fields (resp : List (String × Json)) (info : PodInfo)
    (h : _fetch_pod_info resp = Except.ok info) :
    lookupField resp "tmp_access_key" = some info.access_key ∧
    lookupField resp "tmp_secret_key" = some info.secret_key ∧
    lookupField resp "tmp_session_token" = some info.session_token ∧
    lookupField resp "cert_auth_data" = some info.cert_auth_data ∧
    lookupField resp "cluster_endpoint" = some info.cluster_endpoint ∧
    lookupField resp "namespace" = some info.nspace ∧
    lookupField resp "aws_account_id" = some info.aws_account_id := by
  unfold _fetch_pod_info at h
  split at h
  · exact Except.noConfusion h
  next ak hak =>
  split at h
  · exact Except.noConfusion h
  next sk hsk =>
  split at h
  · exact Except.noConfusion h
  next tok htok =>
  split at h
  · exact Except.noConfusion h
  next cad hcad =>
  split at h
  · exact Except.noConfusion h
  next ce hce =>
  split at h
  · exact Except.noConfusion h
  next nsp hnsp =>
  split at h
  · exact Except.noConfusion h
  next aid haid =>
  obtain rfl : info = ⟨ak, sk, tok, cad, ce, nsp, aid⟩ := (Except.ok.injEq _ _).mp h.symm
  exact ⟨hak, hsk, htok, hcad, hce, hnsp, haid⟩

/-- C3: a broker response missing any of the seven required fields makes
`_fetch_pod_info` fail with the malformed-response error, and a
successful return carries exactly the seven looked-up values — never a
partially-populated tuple. -/
theorem fetch_requires_all_fields :
    (∀ (resp : List (String × Json)) (k : String), k ∈ requiredFields →
      lookupField resp k = none →
      _fetch_pod_info resp = Except.error "malformed response on image upload") ∧
    (∀ (resp : List (String × Json)) (info : PodInfo),
      _fetch_pod_info resp = Except.ok info →
      lookupField resp "tmp_access_key" = some info.access_key ∧
      lookupField resp "tmp_secret_key" = some info.secret_key ∧
      lookupField resp "tmp_session_token" = some info.session_token ∧
      lookupField resp "cert_auth_data" = some info.cert_auth_data ∧
      lookupField resp "cluster_endpoint" = some info.cluster_endpoint ∧
      lookupField resp "namespace" = some info.nspace ∧
      lookupField resp "aws_account_id" = some info.aws_account_id) := by
  constructor
  · intro resp k hk hnone
    cases hf : _fetch_pod_info resp with
    | error msg =>
      have : msg = "malformed response on image upload" := by
        unfold _fetch_pod_info at hf
        repeat' split at hf
        all_goals first
          | exact ((Except.error.injEq _ _).mp hf).symm
          | exact Except.noConfusion hf
      rw [this]
    | ok info =>
      exfalso
      have hall := fetch_ok_fields resp info hf
      fin_cases hk <;> simp_all
  · exact fetch_ok_fields

/-- A broker response with every required field except `aws_account_id`. -/
def respMissingAccount : List (String × Json) :=
  [("tmp_access_key", Json.str "AK"), ("tmp_secret_key", Json.str "SK"),
   ("tmp_session_token", Json.str "TOK"), ("cert_auth_data", Json.str "CA"),
   ("cluster_endpoint", Json.str "EP"), ("namespace", Json.str "NS")]

/-- A broker response with all seven required fields. -/
def fullResp : List (String × Json) :=
  respMissingAccount ++ [("aws_account_id", Json.str "123")]

/-- C3 witness: a response missing `aws_account_id` errors; the full
response returns exactly its seven values. -/
theorem fetch_requires_all_fields_witness :
    ("aws_account_id" ∈ requiredFields) ∧
    lookupField respMissingAccount "aws_account_id" = none ∧
    _fetch_pod_info respMissingAccount = Except.error "malformed response on image upload" ∧
    lookupField fullResp "tmp_access_key" = some (Json.str "AK") := by
  refine ⟨by decide, rfl, ?_, ?_⟩
  · exact fetch_requires_all_fields.1 respMissingAccount "aws_account_id" (by decide) rfl
  · exact (fetch_requires_all_fields.2 fullResp ⟨Json.str "AK", Json.str "SK", Json.str "TOK",
      Json.str "CA", Json.str "EP", Json.str "NS", Json.str "123"⟩ rfl).1

set_option maxRecDepth 40000 in
/-- Fidelity check of the chunked template: on concrete inputs the
rendered kubeconfig is exactly the source's dedented f-string with the
six interpolations substituted. -/
theorem kubeconfig_concrete_rendering :
    _construct_kubeconfig "CERT" "EP" "123" "AK" "SK" "TOK" =
  "apiVersion: v1\nclusters:\n- cluster:\n    certificate-authority-data: CERT\n    server: EP\n  name: arn:aws:eks:us-west-2:123:cluster/prion-prod\ncontexts:\n- context:\n    cluster: arn:aws:eks:us-west-2:123:cluster/prion-prod\n    user: arn:aws:eks:us-west-2:123:cluster/prion-prod\n  name: arn:aws:eks:us-west-2:123:cluster/prion-prod\ncurrent-context: arn:aws:eks:us-west-2:123:cluster/prion-prod\nkind: Config\npreferences: \x7b\x7d\nusers:\n- name: arn:aws:eks:us-west-2:123:cluster/prion-prod\n  user:\n    exec:\n      apiVersion: client.authentication.k8s.io/v1beta1\n      command: aws\n      args:\n        - --region\n        - us-west-2\n        - eks\n        - get-token\n        - --cluster-name\n        - prion-prod\n      env:\n        - name: \x27AWS_ACCESS_KEY_ID\x27\n          value: \x27AK\x27\n        - name: \x27AWS_SECRET_ACCESS_KEY\x27\n          value: \x27SK\x27\n        - name: \x27AWS_SESSION_TOKEN\x27\n          value: \x27TOK\x27" := rfl

/-- C4: the rendered profile decomposes so that the cluster entry's
`name:` (the one directly before the `contexts:` section) and the context
entry's `name:` (the one directly before `current-context:`, which itself
names the same string) are the literally identical string
`eksName account_id`, derived only from the account id and the fixed
region/cluster-name constants; and each of the three temporary
credentials appears verbatim (no transformation, no truncation) as the
quoted `value:` of its environment entry. -/
theorem kubeconfig_names_and_credentials (cert ep acct ak sk st : String) :
    ∃ q1 q2 q3 q4 q5 : String,
      _construct_kubeconfig cert ep acct ak sk st =
        q1 ++ ("\n  name: " ++ (eksName acct ++ ("\ncontexts:" ++
        (q2 ++ ("\n  name: " ++ (eksName acct ++ ("\ncurrent-context: " ++
        (eksName acct ++ (q3 ++ ("value: \x27" ++ (ak ++ ("\x27" ++
        (q4 ++ ("value: \x27" ++ (sk ++ ("\x27" ++
        (q5 ++ ("value: \x27" ++ (st ++ "\x27"))))))))))))))))))) := by
  refine ⟨"apiVersion: v1\nclusters:\n- cluster:\n    certificate-authority-data: " ++
      (cert ++ ("\n    server: " ++ ep)),
    "\n- context:\n    cluster: " ++ (eksName acct ++ ("\n    user: " ++ eksName acct)),
    "\nkind: Config\npreferences: \x7b\x7d\nusers:\n- name: " ++ (eksName acct ++
      ("\n  user:\n    exec:\n      apiVersion: client.authentication.k8s.io/v1beta1\n      command: aws\n      args:\n        - --region\n        - " ++
      (region_code ++
      ("\n        - eks\n        - get-token\n        - --cluster-name\n        - " ++
      (cluster_name ++ "\n      env:\n        - name: \x27AWS_ACCESS_KEY_ID\x27\n          "))))),
    "\n        - name: \x27AWS_SECRET_ACCESS_KEY\x27\n          ",
    "\n        - name: \x27AWS_SESSION_TOKEN\x27\n          ", ?_⟩
  simp only [_construct_kubeconfig, eksName, String.append_assoc]

/-- Generalized demultiplexing invariant: running the pump from any state
over well-formed events appends exactly the spec-described write sequence
to the writes already made. -/
theorem pump_writes_demux (es : List Event) : ∀ s : PumpState,
    (∀ e ∈ es, isDemuxEvent e = true) →
    writesOf (pumpRun s es) = s.writes ++ demuxSpec es := by
  induction es with
  | nil => intro s _; simp [pumpRun, writesOf, demuxSpec]
  | cons e es ih =>
    intro s h
    have he : isDemuxEvent e = true := h e (List.mem_cons_self e es)
    have hes : ∀ e2 ∈ es, isDemuxEvent e2 = true :=
      fun e2 h2 => h e2 (List.mem_cons_of_mem e h2)
    cases e with
    | localReady d =>
      by_cases hd : d.length > 0 <;>
        simp [pumpRun, pumpStep, hd, demuxSpec, ih _ hes]
    | sockReady op data =>
      cases data with
      | nil => simp [isDemuxEvent] at he
      | cons ch p =>
        simp only [isDemuxEvent, Bool.and_eq_true, beq_iff_eq,
          decide_eq_true_eq, OPCODE_BINARY] at he
        obtain ⟨rfl, hch⟩ := he
        interval_cases ch
        · simp [pumpRun, pumpStep, demuxSpec, writesOf, OPCODE_CLOSE,
            OPCODE_BINARY, STDOUT_CHANNEL, STDERR_CHANNEL, ERROR_CHANNEL]
        · cases p with
          | nil =>
            simp [pumpRun, pumpStep, demuxSpec, ih _ hes, OPCODE_CLOSE,
              OPCODE_BINARY, STDOUT_CHANNEL, STDERR_CHANNEL, stdoutFd]
          | cons b bs =>
            simp [pumpRun, pumpStep, demuxSpec, ih _ hes, OPCODE_CLOSE,
              OPCODE_BINARY, STDOUT_CHANNEL, STDERR_CHANNEL, stdoutFd]
        · cases p with
          | nil =>
            simp [pumpRun, pumpStep, demuxSpec, ih _ hes, OPCODE_CLOSE,
              OPCODE_BINARY, STDOUT_CHANNEL, STDERR_CHANNEL, stderrFd]
          | cons b bs =>
            simp [pumpRun, pumpStep, demuxSpec, ih _ hes, OPCODE_CLOSE,
              OPCODE_BINARY, STDOUT_CHANNEL, STDERR_CHANNEL, stderrFd]
        · simp [pumpRun, pumpStep, demuxSpec, writesOf, OPCODE_CLOSE,
            OPCODE_BINARY, STDOUT_CHANNEL, STDERR_CHANNEL, ERROR_CHANNEL]

/-- C6: over any interleaving of local reads and inbound binary frames on
channels 0-3, the pump's local writes are exactly the channel-1 payloads
to the stdout descriptor and the channel-2 payloads to the stderr
descriptor, in receipt order, with empty payloads skipped; a status
(channel 3) frame contributes no local write and nothing after it is
written, and local input events contribute no local write. -/
theorem demux_order (es : List Event)
    (h : ∀ e ∈ es, isDemuxEvent e = true) :
    writesOf (pumpRun initPumpState es) = demuxSpec es := by
  simpa [initPumpState] using pump_writes_demux es initPumpState h

/-- Events for the C6 witness: stdout bytes, a local read, stderr bytes,
an empty stdout frame, a status frame, then a frame past termination. -/
def demuxDemoEvents : List Event :=
  [Event.sockReady 2 [1, 104, 105], Event.localReady [7], Event.sockReady 2 [2, 33],
   Event.sockReady 2 [1], Event.sockReady 2 [3, 125], Event.sockReady 2 [1, 99]]

/-- C6 witness: concrete run showing order, the skipped empty payload,
and truncation at the status frame. -/
theorem demux_order_witness :
    (∀ e ∈ demuxDemoEvents, isDemuxEvent e = true) ∧
    writesOf (pumpRun initPumpState demuxDemoEvents) =
      [(stdoutFd, [104, 105]), (stderrFd, [33])] := by
  refine ⟨by decide, ?_⟩
  rw [demux_order demuxDemoEvents (by decide)]
  rfl

/-- When every cause carries a `reason` key, the source's cause scan
returns exactly the exit code the spec describes. -/
theorem scan_of_spec (cs : List Json) (n : Int)
    (hall : ∀ c ∈ cs, ∃ r, jget c "reason" = Except.ok r)
    (hspec : specExitCodeOfCauses cs = some n) :
    scanCauses cs = Except.ok (some n) := by
  induction cs with
  | nil => simp [specExitCodeOfCauses] at hspec
  | cons c cs ih =>
    obtain ⟨r, hr⟩ := hall c (List.mem_cons_self c cs)
    cases hb : (r == Json.str "ExitCode") with
    | true =>
      simp only [specExitCodeOfCauses, hr, hb, if_true] at hspec
      simp only [scanCauses, hr, hb, if_true]
      cases hm : jget c "message" with
      | error e => simp [hm] at hspec
      | ok m =>
        simp only [hm] at hspec ⊢
        cases m <;> simp_all [pyIntOf]
    | false =>
      simp only [specExitCodeOfCauses, hr, hb, Bool.false_eq_true, if_false] at hspec
      simp only [scanCauses, hr, hb, Bool.false_eq_true, if_false]
      exact ih (fun c2 h2 => hall c2 (List.mem_cons_of_mem c h2)) hspec

/-- When every cause has a `reason` key different from `"ExitCode"`, the
scan falls through without returning a code. -/
theorem scan_no_exit (cs : List Json)
    (hall : ∀ c ∈ cs, ∃ r, jget c "reason" = Except.ok r ∧
      (r == Json.str "ExitCode") = false) :
    scanCauses cs = Except.ok none := by
  induction cs with
  | nil => rfl
  | cons c cs ih =>
    obtain ⟨r, hr, hf⟩ := hall c (List.mem_cons_self c cs)
    simp only [scanCauses, hr, hf, Bool.false_eq_true, if_false]
    exact ih (fun c2 h2 => hall c2 (List.mem_cons_of_mem c h2))

/-- A failed subscript is a `KeyError` on the requested key or a
`TypeError`, never any other outcome. -/
theorem jget_error_cases (j : Json) (k : String) (e : Outcome)
    (h : jget j k = Except.error e) :
    e = Outcome.keyError k ∨ e = Outcome.typeError := by
  cases j with
  | obj fields =>
    simp only [jget] at h
    cases hl : lookupField fields k with
    | some v => simp [hl] at h
    | none =>
      simp only [hl, Except.error.injEq] at h
      exact Or.inl h.symm
  | null => exact Or.inr ((Except.error.injEq _ _).mp h).symm
  | bool b => exact Or.inr ((Except.error.injEq _ _).mp h).symm
  | num n => exact Or.inr ((Except.error.injEq _ _).mp h).symm
  | str s => exact Or.inr ((Except.error.injEq _ _).mp h).symm
  | arr l => exact Or.inr ((Except.error.injEq _ _).mp h).symm

/-- A failed `int()` conversion is a `ValueError` or a `TypeError`. -/
theorem pyIntOf_error_cases (m : Json) (e : Outcome)
    (h : pyIntOf m = Except.error e) :
    e = Outcome.valueError ∨ e = Outcome.typeError := by
  cases m with
  | str s =>
    simp only [pyIntOf] at h
    cases hp : pyIntStr s with
    | some n => simp [hp] at h
    | none =>
      simp only [hp, Except.error.injEq] at h
      exact Or.inl h.symm
  | num n => exact Except.noConfusion h
  | bool b => exact Except.noConfusion h
  | null => exact Or.inr ((Except.error.injEq _ _).mp h).symm
  | arr l => exact Or.inr ((Except.error.injEq _ _).mp h).symm
  | obj f => exact Or.inr ((Except.error.injEq _ _).mp h).symm

/-- The cause scan can only fail with an exception outcome, never with
the printed generic-failure exit. -/
theorem scanCauses_error_cases (cs : List Json) (e : Outcome)
    (h : scanCauses cs = Except.error e) : e ≠ Outcome.fatalStatus := by
  induction cs with
  | nil => exact Except.noConfusion h
  | cons c cs ih =>
    cases hr : jget c "reason" with
    | error e2 =>
      simp only [scanCauses, hr, Except.error.injEq] at h
      subst h
      rcases jget_error_cases c "reason" e2 hr with rfl | rfl <;> simp
    | ok r =>
      cases hb : (r == Json.str "ExitCode") with
      | false =>
        simp only [scanCauses, hr, hb, Bool.false_eq_true, if_false] at h
        exact ih h
      | true =>
        simp only [scanCauses, hr, hb, if_true] at h
        cases hm : jget c "message" with
        | error e3 =>
          simp only [hm, Except.error.injEq] at h
          subst h
          rcases jget_error_cases c "message" e3 hm with rfl | rfl <;> simp
        | ok m =>
          simp only [hm] at h
          cases hp : pyIntOf m with
          | error e4 =>
            simp only [hp, Except.error.injEq] at h
            subst h
            rcases pyIntOf_error_cases m e4 hp with rfl | rfl <;> simp
          | ok n => simp [hp] at h

/-- C1 (amended): a status-channel frame always terminates the loop at
once (first conjunct: the step is `done` for every payload); a payload
whose `status` is `"Success"` yields exit code 0; a failure payload with
reason `"NonZeroExitCode"` whose causes all carry a `reason` key yields
the numeric code carried in the first `ExitCode` cause's `message`; and a
failure payload with any other reason yields the generic diagnostic-and-
exit-1 result provided it also carries a `"message"` key (without that
key the lookup raises instead — see the counterexample). -/
theorem status_frame_decoding :
    (∀ (s : PumpState) (payload : List Nat), ∃ r : Outcome,
      pumpStep s (Event.sockReady OPCODE_BINARY (ERROR_CHANNEL :: payload)) =
        StepOut.done r) ∧
    (∀ error : Json, jget error "status" = Except.ok (Json.str "Success") →
      decodeStatus error = Outcome.exitCode 0) ∧
    (∀ (error det st : Json) (cs : List Json) (n : Int),
      jget error "status" = Except.ok st →
      (st == Json.str "Success") = false →
      jget error "reason" = Except.ok (Json.str "NonZeroExitCode") →
      jget error "details" = Except.ok det →
      jget det "causes" = Except.ok (Json.arr cs) →
      (∀ c ∈ cs, ∃ r, jget c "reason" = Except.ok r) →
      specExitCodeOfCauses cs = some n →
      decodeStatus error = Outcome.exitCode n) ∧
    (∀ (error st r m : Json),
      jget error "status" = Except.ok st →
      (st == Json.str "Success") = false →
      jget error "reason" = Except.ok r →
      (r == Json.str "NonZeroExitCode") = false →
      jget error "message" = Except.ok m →
      decodeStatus error = Outcome.fatalStatus) := by
  refine ⟨?_, ?_, ?_, ?_⟩
  · intro s payload
    exact ⟨_, rfl⟩
  · intro error h
    simp only [decodeStatus, h]
    rfl
  · intro error det st cs n hst hsf hr hd hc hall hspec
    simp only [decodeStatus, hst, hsf, Bool.false_eq_true, if_false, hr,
      show (Json.str "NonZeroExitCode" == Json.str "NonZeroExitCode") = true from rfl,
      if_true, hd, hc, scan_of_spec cs n hall hspec]
  · intro error st r m hst hsf hr hrf hm
    simp only [decodeStatus, hst, hsf, Bool.false_eq_true, if_false, hr, hrf,
      genericFail, hm]

/-- C1 witness: the three spec payloads decode to 0, 17 and the generic
failure, and a concrete status frame terminates the step. -/
theorem status_frame_decoding_witness :
    decodeStatus successPayload = Outcome.exitCode 0 ∧
    decodeStatus payload17 = Outcome.exitCode 17 ∧
    decodeStatus boomPayload = Outcome.fatalStatus ∧
    (∃ r : Outcome,
      pumpStep initPumpState
        (Event.sockReady OPCODE_BINARY
          (ERROR_CHANNEL :: strBytes "\x7b\"status\":\"Success\"\x7d")) =
        StepOut.done r) := by
  refine ⟨?_, ?_, ?_, ?_⟩
  · exact status_frame_decoding.2.1 successPayload rfl
  · exact status_frame_decoding.2.2.1 payload17
      (Json.obj [("causes", Json.arr [cause17])]) (Json.str "Failure") [cause17] 17
      rfl rfl rfl rfl rfl
      (by
        intro c hc
        simp only [List.mem_singleton] at hc
        subst hc
        exact ⟨Json.str "ExitCode", rfl⟩)
      rfl
  · exact status_frame_decoding.2.2.2 boomPayload (Json.str "Failure")
      (Json.str "SomethingElse") (Json.str "boom") rfl rfl rfl rfl rfl
  · exact status_frame_decoding.1 initPumpState _

/-- C1 counterexample: the claim says a failure payload with any other
reason yields the generic fatal diagnostic result, but a failure payload
without a `message` key instead raises an uncaught `KeyError` from the
diagnostic's subscript, so the generic fatal result is not produced. -/
theorem status_decoding_counterexample :
    decodeStatus noMessageFailure = Outcome.keyError "message" ∧
    decodeStatus noMessageFailure ≠ Outcome.fatalStatus := by
  exact ⟨rfl, by decide⟩

/-- C10: a non-success payload with no `reason` key raises `KeyError`
rather than producing a result; a `NonZeroExitCode` payload whose causes
all have non-`ExitCode` reasons and which lacks a `message` key raises
`KeyError` as well; and conversely the generic-failure exit is reached
only when both the `status` and `message` keys are present. -/
theorem generic_failure_needs_keys :
    (∀ (fields : List (String × Json)) (st : Json),
      jget (Json.obj fields) "status" = Except.ok st →
      (st == Json.str "Success") = false →
      lookupField fields "reason" = none →
      decodeStatus (Json.obj fields) = Outcome.keyError "reason") ∧
    (∀ (fields : List (String × Json)) (st det : Json) (cs : List Json),
      jget (Json.obj fields) "status" = Except.ok st →
      (st == Json.str "Success") = false →
      jget (Json.obj fields) "reason" = Except.ok (Json.str "NonZeroExitCode") →
      jget (Json.obj fields) "details" = Except.ok det →
      jget det "causes" = Except.ok (Json.arr cs) →
      (∀ c ∈ cs, ∃ r, jget c "reason" = Except.ok r ∧
        (r == Json.str "ExitCode") = false) →
      lookupField fields "message" = none →
      decodeStatus (Json.obj fields) = Outcome.keyError "message") ∧
    (∀ error : Json, decodeStatus error = Outcome.fatalStatus →
      (∃ st, jget error "status" = Except.ok st) ∧
      (∃ m, jget error "message" = Except.ok m)) := by
  refine ⟨?_, ?_, ?_⟩
  · intro fields st hst hsf hnone
    have hjr : jget (Json.obj fields) "reason" =
        Except.error (Outcome.keyError "reason") := by
      simp [jget, hnone]
    simp only [decodeStatus, hst, hsf, Bool.false_eq_true, if_false, hjr]
  · intro fields st det cs hst hsf hr hd hc hall hnone
    have hjm : jget (Json.obj fields) "message" =
        Except.error (Outcome.keyError "message") := by
      simp [jget, hnone]
    simp only [decodeStatus, hst, hsf, Bool.false_eq_true, if_false, hr,
      show (Json.str "NonZeroExitCode" == Json.str "NonZeroExitCode") = true from rfl,
      if_true, hd, hc, scan_no_exit cs hall, genericFail, hjm]
  · intro error h
    cases hst : jget error "status" with
    | error e =>
      simp only [decodeStatus, hst] at h
      subst h
      rcases jget_error_cases error "status" _ hst with h2 | h2 <;> simp at h2
    | ok st =>
      cases hb : (st == Json.str "Success") with
      | true => simp [decodeStatus, hst, hb] at h
      | false =>
        cases hr : jget error "reason" with
        | error e =>
          simp only [decodeStatus, hst, hb, Bool.false_eq_true, if_false, hr] at h
          subst h
          rcases jget_error_cases error "reason" _ hr with h2 | h2 <;> simp at h2
        | ok r =>
          cases hrb : (r == Json.str "NonZeroExitCode") with
          | false =>
            simp only [decodeStatus, hst, hb, Bool.false_eq_true, if_false, hr, hrb,
              genericFail] at h
            cases hm : jget error "message" with
            | error e =>
              simp only [hm] at h
              subst h
              rcases jget_error_cases error "message" _ hm with h2 | h2 <;> simp at h2
            | ok m => exact ⟨⟨st, rfl⟩, ⟨m, rfl⟩⟩
          | true =>
            cases hd : jget error "details" with
            | error e =>
              simp only [decodeStatus, hst, hb, Bool.false_eq_true, if_false, hr, hrb,
                if_true, hd] at h
              subst h
              rcases jget_error_cases error "details" _ hd with h2 | h2 <;> simp at h2
            | ok det =>
              cases hc : jget det "causes" with
              | error e =>
                simp only [decodeStatus, hst, hb, Bool.false_eq_true, if_false, hr, hrb,
                  if_true, hd, hc] at h
                subst h
                rcases jget_error_cases det "causes" _ hc with h2 | h2 <;> simp at h2
              | ok causes =>
                cases causes with
                | arr cs =>
                  cases hsc : scanCauses cs with
                  | error e =>
                    simp only [decodeStatus, hst, hb, Bool.false_eq_true, if_false, hr,
                      hrb, if_true, hd, hc, hsc] at h
                    subst h
                    exact absurd rfl (scanCauses_error_cases cs _ hsc)
                  | ok o =>
                    cases o with
                    | some n =>
                      simp [decodeStatus, hst, hb, hr, hrb, hd, hc, hsc] at h
                    | none =>
                      simp only [decodeStatus, hst, hb, Bool.false_eq_true, if_false,
                        hr, hrb, if_true, hd, hc, hsc, genericFail] at h
                      cases hm : jget error "message" with
                      | error e =>
                        simp only [hm] at h
                        subst h
                        rcases jget_error_cases error "message" _ hm with h2 | h2 <;>
                          simp at h2
                      | ok m => exact ⟨⟨st, rfl⟩, ⟨m, rfl⟩⟩
                | null => simp [decodeStatus, hst, hb, hr, hrb, hd, hc] at h
                | bool b2 => simp [decodeStatus, hst, hb, hr, hrb, hd, hc] at h
                | num n2 => simp [decodeStatus, hst, hb, hr, hrb, hd, hc] at h
                | str s2 => simp [decodeStatus, hst, hb, hr, hrb, hd, hc] at h
                | obj f2 => simp [decodeStatus, hst, hb, hr, hrb, hd, hc] at h

/-- C10 witness: a failure payload with no reason key, a
`NonZeroExitCode` payload with no `ExitCode` cause and no message key,
and the generic-failure payload's implied keys. -/
theorem generic_failure_needs_keys_witness :
    decodeStatus (Json.obj [("status", Json.str "Failure")]) =
      Outcome.keyError "reason" ∧
    decodeStatus (Json.obj [("status", Json.str "Failure"),
      ("reason", Json.str "NonZeroExitCode"),
      ("details", Json.obj [("causes",
        Json.arr [Json.obj [("reason", Json.str "OOMKilled")]])])]) =
      Outcome.keyError "message" ∧
    decodeStatus boomPayload = Outcome.fatalStatus ∧
    ((∃ st, jget boomPayload "status" = Except.ok st) ∧
     (∃ m, jget boomPayload "message" = Except.ok m)) := by
  refine ⟨?_, ?_, rfl, ?_⟩
  · exact generic_failure_needs_keys.1 [("status", Json.str "Failure")]
      (Json.str "Failure") rfl rfl rfl
  · exact generic_failure_needs_keys.2.1
      [("status", Json.str "Failure"), ("reason", Json.str "NonZeroExitCode"),
       ("details", Json.obj [("causes",
         Json.arr [Json.obj [("reason", Json.str "OOMKilled")]])])]
      (Json.str "Failure")
      (Json.obj [("causes", Json.arr [Json.obj [("reason", Json.str "OOMKilled")]])])
      [Json.obj [("reason", Json.str "OOMKilled")]]
      rfl rfl rfl rfl rfl
      (by
        intro c hc
        simp only [List.mem_singleton] at hc
        subst hc
        exact ⟨Json.str "OOMKilled", rfl, rfl⟩)
      rfl
  · exact generic_failure_needs_keys.2.2 boomPayload rfl

end LatchExec
